import Mathlib

/-!
Verification of the resilient speaking-evaluation pipeline.

The TypeScript sources are shallowly embedded below.  JavaScript numbers are
modelled as rationals (`ℚ`), JSON values as the inductive `Json`, JavaScript
objects as association lists, and the effectful orchestration loops as pure
functions over an explicit environment describing the provider's responses.
Namespaces:
* `V1`   — the synchronous edge function (first document of
  `evaluate-speaking-async/index.ts`);
* `V2`   — the asynchronous job-based edge function (second document of
  `evaluate-speaking-async/index.ts`);
* `Part` — `evaluate-ai-speaking-part/index.ts`;
* `Full` — the full-test evaluation function embedded after the first
  migration (`normalizeEvaluationResponse` and friends).
-/

/-- ASCII lowercasing of a string, modelling JavaScript `toLowerCase()`. -/
def lowerStr (s : String) : String := String.mk (s.data.map Char.toLower)

/-- Whitespace trimming of a string, modelling JavaScript `trim()`. -/
def strTrim (s : String) : String :=
  String.mk (((s.data.dropWhile Char.isWhitespace).reverse.dropWhile Char.isWhitespace).reverse)

/-- `strIncludes s sub` models JavaScript `s.includes(sub)`. -/
def strIncludes (s sub : String) : Bool :=
  (s.data.tails).any (fun t => List.isPrefixOf sub.data t)

/-- JSON values; JavaScript numbers are modelled as rationals. -/
inductive Json where
  | null : Json
  | bool : Bool → Json
  | num : ℚ → Json
  | str : String → Json
  | arr : List Json → Json
  | obj : List (String × Json) → Json

/-- Property access `j[k]` on a JSON value: `none` models `undefined`
(also the result of accessing a property of a non-object). -/
def jget : Json → String → Option Json
  | .obj fields, k => fields.lookup k
  | _, _ => none

/-- Property access followed by JavaScript nullish collapsing: a present
`null` behaves like `undefined` on the left of `??` and `?.`. -/
def jgetNN (j : Json) (k : String) : Option Json :=
  match jget j k with
  | some .null => none
  | o => o

/-- JavaScript truthiness of a value. -/
def truthy : Json → Bool
  | .null => false
  | .bool b => b
  | .num q => !(q == 0)
  | .str s => !(s == "")
  | .arr _ => true
  | .obj _ => true

/-- Truthiness of a possibly-undefined value. -/
def truthyOpt : Option Json → Bool
  | none => false
  | some v => truthy v

/-- `ensureArray` from the sources: `Array.isArray(val) ? val : []`,
applied to a possibly-undefined value. -/
def ensureArray : Option Json → List Json
  | some (.arr xs) => xs
  | _ => []

/-- Numeric reading of a possibly-undefined value, defaulting to 0
(used where the source computes `(x ?? 0)` and then does arithmetic;
the theorems only rely on it where the field is a number or absent). -/
def numOr0 : Option Json → ℚ
  | some (.num q) => q
  | _ => 0

/-- JavaScript `Math.round` (round half toward positive infinity). -/
def jsRound (q : ℚ) : ℤ := ⌊q + 1 / 2⌋

/-- JavaScript `Math.max` on rationals (kernel-computable). -/
def jsMax (a b : ℚ) : ℚ := if a ≤ b then b else a

/-- JavaScript `Math.min` on rationals (kernel-computable). -/
def jsMin (a b : ℚ) : ℚ := if a ≤ b then a else b

/-- The optional chain `criteria.<key>?.band`. -/
def bandOfCriterion (c : Json) (key : String) : Option Json :=
  match jgetNN c key with
  | none => none
  | some v => jget v "band"

/-- The filter `typeof s === 'number'` over a possibly-undefined value. -/
def numBandFilter : Option Json → Option ℚ
  | some (.num q) => some q
  | _ => none

/-- The filter `Boolean` (truthiness) over a possibly-undefined value. -/
def truthyBandFilter : Option Json → Option Json
  | some v => if truthy v then some v else none
  | none => none

/-- Numeric value of a JSON number.  Non-numbers map to 0: JavaScript
arithmetic on non-numbers yields NaN/concatenation and is outside this
embedding; the theorems only use this where every operand is a number. -/
def jsNumVal : Json → ℚ
  | .num q => q
  | _ => 0

namespace V1

/-- Classification record returned by `classifyGeminiError` in the first
document of `evaluate-speaking-async/index.ts`. -/
structure ErrFlags where
  isQuota : Bool
  isRateLimit : Bool
  isUnavailable : Bool
deriving DecidableEq

/-- `classifyGeminiError` (evaluate-speaking-async/index.ts, first document,
lines 49–65). -/
def classifyGeminiError (status : Nat) (errorText : String) : ErrFlags :=
  let lower := lowerStr errorText
  if status == 429 || strIncludes lower "quota" || strIncludes lower "resource_exhausted" then
    ⟨true, false, false⟩
  else if strIncludes lower "rate limit" || strIncludes lower "too many requests" then
    ⟨false, true, false⟩
  else if status == 503 || strIncludes lower "overloaded" || strIncludes lower "unavailable" then
    ⟨false, false, true⟩
  else
    ⟨false, false, false⟩

/-- `calculateOverallBand` (evaluate-speaking-async/index.ts, first
document, lines 481–498): return a truthy `overall_band` verbatim;
otherwise average the criterion bands that are numbers, rounded to the
nearest half; default 6.0 when criteria are missing or no numeric band
exists. -/
def calculateOverallBand (result : Json) : Json :=
  if truthyOpt (jget result "overall_band") then (jget result "overall_band").getD .null
  else
    let criteria := (jget result "criteria").getD .null
    if truthy criteria = false then .num 6
    else
      let scores := ([bandOfCriterion criteria "fluency_coherence",
          bandOfCriterion criteria "lexical_resource",
          bandOfCriterion criteria "grammatical_range",
          bandOfCriterion criteria "pronunciation"]).filterMap numBandFilter
      if scores.length = 0 then .num 6
      else .num ((jsRound ((scores.sum / scores.length) * 2) : ℚ) / 2)

end V1

namespace PartEval

/-- `GeminiErrorInfo` from `evaluate-ai-speaking-part/index.ts`. -/
structure GeminiErrorInfo where
  code : String
  userMessage : String
  isQuota : Bool
  isRateLimit : Bool
  isInvalidKey : Bool
deriving DecidableEq

/-- `classifyGeminiError` (evaluate-ai-speaking-part/index.ts, lines 41–101). -/
def classifyGeminiError (status : Nat) (errorText : String) : GeminiErrorInfo :=
  let lower := lowerStr errorText
  if status == 429 || strIncludes lower "quota" || strIncludes lower "resource_exhausted" then
    { code := "QUOTA_EXCEEDED"
      userMessage := "Gemini API quota exceeded. Please wait a few minutes or check your Google AI Studio billing."
      isQuota := true, isRateLimit := false, isInvalidKey := false }
  else if strIncludes lower "rate limit" || strIncludes lower "too many requests" then
    { code := "RATE_LIMITED"
      userMessage := "Too many requests to Gemini API. Please wait 30 seconds and try again."
      isQuota := false, isRateLimit := true, isInvalidKey := false }
  else if status == 400 && (strIncludes lower "api_key" || strIncludes lower "api key") then
    { code := "INVALID_API_KEY"
      userMessage := "Invalid Gemini API key. Please update your API key in Settings."
      isQuota := false, isRateLimit := false, isInvalidKey := true }
  else if status == 403 then
    { code := "PERMISSION_DENIED"
      userMessage := "Gemini API access denied. Your API key may not have permissions for this model."
      isQuota := false, isRateLimit := false, isInvalidKey := false }
  else if status == 503 then
    { code := "SERVICE_UNAVAILABLE"
      userMessage := "Gemini API is temporarily unavailable. Please try again in a few minutes."
      isQuota := false, isRateLimit := false, isInvalidKey := false }
  else
    { code := "GEMINI_ERROR"
      userMessage := "Gemini API error. Please try again."
      isQuota := false, isRateLimit := false, isInvalidKey := false }

/-- Outcome of a single Gemini call in `tryGeminiWithKey`. -/
inductive CallOutcome where
  | httpErr (status : Nat) (body : String)
  | ok (hasText : Bool) (parses : Bool)
  | thrown (msg : String)

/-- `GEMINI_MODELS_FALLBACK_ORDER` (evaluate-ai-speaking-part/index.ts,
lines 16–21). -/
def GEMINI_MODELS_FALLBACK_ORDER : List String :=
  ["gemini-1.5-flash", "gemini-2.0-flash-exp", "gemini-flash-latest", "gemini-1.5-pro"]

/-- Observable result of one `tryGeminiWithKey` call: overall success, the
models attempted with this key, the `userKeyFailed` flag, and the pool-key
side effects requested. -/
structure TryResult where
  success : Bool
  attemptedModels : List String
  userKeyFailed : Bool
  markedExhausted : Bool
  deactivated : Bool
deriving DecidableEq

/-- The model loop of `tryGeminiWithKey` (evaluate-ai-speaking-part/
index.ts, lines 370–464).  For an HTTP error: an invalid-key error on a
pool key deactivates it and returns; a quota/rate-limit error on a pool
key marks it exhausted and returns; a quota/rate-limit error on the user
key sets `userKeyFailed` and returns; an invalid user key returns; any
other error advances to the next model.  An OK response succeeds exactly
when it has text that parses; otherwise (and on a thrown/timeout error)
the loop advances to the next model. -/
def tryGeminiWithKeyGo (usingUserKey : Bool) (hasPoolKeyId : Bool)
    (env : String → CallOutcome) : List String → TryResult
  | [] => ⟨false, [], false, false, false⟩
  | m :: ms =>
    match env m with
    | .httpErr s body =>
      let info := classifyGeminiError s body
      if hasPoolKeyId ∧ info.isInvalidKey = true then
        ⟨false, [m], false, false, true⟩
      else if hasPoolKeyId ∧ (info.isQuota || info.isRateLimit) = true then
        ⟨false, [m], false, true, false⟩
      else if usingUserKey ∧ (info.isQuota || info.isRateLimit) = true then
        ⟨false, [m], true, false, false⟩
      else if usingUserKey ∧ info.isInvalidKey = true then
        ⟨false, [m], false, false, false⟩
      else
        let r := tryGeminiWithKeyGo usingUserKey hasPoolKeyId env ms
        ⟨r.success, m :: r.attemptedModels, r.userKeyFailed, r.markedExhausted, r.deactivated⟩
    | .ok hasText parses =>
      if hasText && parses then ⟨true, [m], false, false, false⟩
      else
        let r := tryGeminiWithKeyGo usingUserKey hasPoolKeyId env ms
        ⟨r.success, m :: r.attemptedModels, r.userKeyFailed, r.markedExhausted, r.deactivated⟩
    | .thrown _ =>
      let r := tryGeminiWithKeyGo usingUserKey hasPoolKeyId env ms
      ⟨r.success, m :: r.attemptedModels, r.userKeyFailed, r.markedExhausted, r.deactivated⟩

/-- `tryGeminiWithKey` over the full model fallback order. -/
def tryGeminiWithKey (usingUserKey : Bool) (hasPoolKeyId : Bool)
    (env : String → CallOutcome) : TryResult :=
  tryGeminiWithKeyGo usingUserKey hasPoolKeyId env GEMINI_MODELS_FALLBACK_ORDER

/-- The pool-key rotation loop (lines 483–491): try the pool keys at the
given indices in order, stopping at the first success, tagging attempted
(key, model) pairs with the pool index. -/
def poolLoop (poolEnvs : List (String → CallOutcome)) :
    List Nat → Bool × List (Option Nat × String)
  | [] => (false, [])
  | i :: is =>
    let r := tryGeminiWithKey false true (poolEnvs.getD i (fun _ => .thrown "missing key"))
    if r.success then (true, r.attemptedModels.map (fun m => (some i, m)))
    else
      let rest := poolLoop poolEnvs is
      (rest.1, r.attemptedModels.map (fun m => (some i, m)) ++ rest.2)

/-- The key-rotation driver (evaluate-ai-speaking-part/index.ts, lines
466–491): try the user key first when present; fall back to pool key 0
only when the user key failed with quota/rate-limit; then rotate over at
most the first `min(poolKeys.length, 3)` pool keys (starting at index 1
when pool key 0 was already consumed by the fallback).  With no user key,
rotate from pool index 0.  Attempted pairs are tagged `none` for the user
key and `some i` for pool key `i`. -/
def rotateKeys (userEnv : Option (String → CallOutcome))
    (poolEnvs : List (String → CallOutcome)) : Bool × List (Option Nat × String) :=
  match userEnv with
  | some ue =>
    let r := tryGeminiWithKey true false ue
    let userAttempts := r.attemptedModels.map (fun m => ((none : Option Nat), m))
    if r.success then (true, userAttempts)
    else if r.userKeyFailed ∧ 0 < poolEnvs.length then
      let r0 := tryGeminiWithKey false true (poolEnvs.getD 0 (fun _ => .thrown "missing key"))
      let a0 := r0.attemptedModels.map (fun m => ((some 0 : Option Nat), m))
      if r0.success then (true, userAttempts ++ a0)
      else
        let rest := poolLoop poolEnvs (List.range' 1 (min poolEnvs.length 3 - 1))
        (rest.1, userAttempts ++ a0 ++ rest.2)
    else (false, userAttempts)
  | none =>
    if 0 < poolEnvs.length then poolLoop poolEnvs (List.range' 0 (min poolEnvs.length 3))
    else (false, [])

end PartEval

/-- Update-or-append of a key in an association list (JavaScript object
assignment / object-spread override). -/
def jsetField : List (String × Json) → String → Json → List (String × Json)
  | [], k, v => [(k, v)]
  | (a, b) :: rest, k, v =>
    if a = k then (a, v) :: rest else (a, b) :: jsetField rest k v

/-- Object spread `{ ...base, k₁ : v₁, ... }`: the base object's fields with
the listed keys overridden in place or appended.  (Spreading a non-object
primitive yields just the listed fields; the sources only spread objects.) -/
def jmerge (base : Json) (updates : List (String × Json)) : Json :=
  match base with
  | .obj fs => .obj (updates.foldl (fun acc kv => jsetField acc kv.1 kv.2) fs)
  | _ => .obj updates

namespace Full

/-- `ensureArray(data.questionScores ?? data.question_scores ?? [])`. -/
def questionScoresOf (data : Json) : List Json :=
  ensureArray (jgetNN data "questionScores" <|> jgetNN data "question_scores")

/-- `data.minimalResponseCount ?? data.minimal_response_count ?? 0`. -/
def minimalResponseCountJ (data : Json) : Json :=
  (jgetNN data "minimalResponseCount" <|> jgetNN data "minimal_response_count").getD (.num 0)

/-- `data.totalQuestionCount ?? data.total_question_count ??
questionScores.length`. -/
def totalQuestionCountJ (data : Json) : Json :=
  (jgetNN data "totalQuestionCount" <|> jgetNN data "total_question_count").getD
    (.num ((questionScoresOf data).length : ℚ))

/-- `data.overallBand ?? data.overall_band ?? 0`. -/
def rawOverallJ (data : Json) : Json :=
  (jgetNN data "overallBand" <|> jgetNN data "overall_band").getD (.num 0)

/-- `questionScores.reduce((sum, qs) => sum + (qs.score ?? 0), 0) /
questionScores.length`. -/
def avgQuestionScore (data : Json) : ℚ :=
  ((questionScoresOf data).map (fun qs => numOr0 (jgetNN qs "score"))).sum /
    ((questionScoresOf data).length : ℚ)

/-- `minimalResponseCount / Math.max(totalQuestionCount, 1)`. -/
def minimalRatioOf (data : Json) : ℚ :=
  jsNumVal (minimalResponseCountJ data) / jsMax (jsNumVal (totalQuestionCountJ data)) 1

/-- The validation block of `normalizeEvaluationResponse` (migration file,
lines 1180–1211): cap the provider's overall band at 4.0 when more than
half the responses are minimal and at 5.0 when more than 30% are, then
clamp it to at most `Math.round((avg + 1.0) * 2) / 2` whenever it exceeds
the average question score by more than 1.5. -/
def cappedOverallBand (data : Json) : ℚ :=
  let raw := jsNumVal (rawOverallJ data)
  let avg := avgQuestionScore data
  let ratio := minimalRatioOf data
  let maxAllowedBand : ℚ := if ratio > 1 / 2 then 4 else if ratio > 3 / 10 then 5 else 9
  let b1 := if raw > maxAllowedBand then maxAllowedBand else raw
  if b1 > avg + 3 / 2 then jsMin b1 ((jsRound ((avg + 1) * 2) : ℚ) / 2) else b1

/-- The `overallBand` value placed in the normalized result: the raw chain
value when no question scores are present, otherwise the validated band. -/
def overallBandJ (data : Json) : Json :=
  if (questionScoresOf data).length = 0 then rawOverallJ data
  else .num (cappedOverallBand data)

/-- `normalizeCriterion(camelKey, snakeKey)` (migration file,
lines 1213–1220). -/
def normalizeCriterion (data : Json) (camelKey snakeKey : String) : Json :=
  let val := (jgetNN data camelKey <|> jgetNN data snakeKey).getD
    (.obj [("score", .num 0), ("feedback", .str "")])
  .obj [("score", (jgetNN val "score").getD (.num 0)),
        ("feedback", (jgetNN val "feedback").getD (.str "")),
        ("examples", .arr (ensureArray (jget val "examples")))]

/-- The `lexicalUpgrades` chain (migration file, lines 1222–1225). -/
def lexicalUpgradesOf (data : Json) : List Json :=
  let lexicalResource := (jgetNN data "lexicalResource" <|> jgetNN data "lexical_resource").getD (.obj [])
  ensureArray ((jgetNN lexicalResource "lexicalUpgrades"
    <|> jgetNN lexicalResource "lexical_upgrades") <|> jgetNN data "lexical_upgrades")

/-- The normalized `lexical_resource` criterion with its upgrade list. -/
def lexicalResourceOf (data : Json) : Json :=
  jmerge (normalizeCriterion data "lexicalResource" "lexical_resource")
    [("lexicalUpgrades", .arr (lexicalUpgradesOf data))]

/-- The normalized `part_analysis` list (migration file, lines 1227–1232). -/
def partAnalysisOf (data : Json) : List Json :=
  (ensureArray (jgetNN data "partAnalysis" <|> jgetNN data "part_analysis")).map (fun p =>
    .obj [("part_number", (jgetNN p "partNumber" <|> jgetNN p "part_number").getD (.num 0)),
          ("strengths", .arr (ensureArray (jget p "strengths"))),
          ("improvements", .arr (ensureArray (jget p "improvements")))])

/-- JavaScript `a || b` on JSON values. -/
def jsOrJ (a b : Json) : Json := if truthy a then a else b

/-- Normalization of one model answer (migration file, lines 1236–1256). -/
def normalizeModelAnswer (ma : Json) : Json :=
  let candidateResponse := (jgetNN ma "candidateResponse" <|> jgetNN ma "candidate_response").getD (.str "")
  jmerge ma [
    ("partNumber", (jgetNN ma "partNumber" <|> jgetNN ma "part_number").getD (.num 1)),
    ("questionNumber", (jgetNN ma "questionNumber" <|> jgetNN ma "question_number").getD (.num 1)),
    ("question", (jgetNN ma "question").getD (.str "")),
    ("candidateResponse", candidateResponse),
    ("questionBandScore", (jgetNN ma "questionBandScore" <|> jgetNN ma "question_band_score").getD (.num 0)),
    ("modelAnswerBand6", (jgetNN ma "modelAnswerBand6" <|> jgetNN ma "model_answer_band6").getD
      (jsOrJ candidateResponse (.str "Model answer at Band 6 level."))),
    ("modelAnswerBand7", (jgetNN ma "modelAnswerBand7" <|> jgetNN ma "model_answer_band7").getD
      (jsOrJ candidateResponse (.str "Model answer at Band 7 level."))),
    ("modelAnswerBand8", (jgetNN ma "modelAnswerBand8" <|> jgetNN ma "model_answer_band8").getD
      (jsOrJ candidateResponse (.str "Model answer at Band 8 level."))),
    ("modelAnswerBand9", (jgetNN ma "modelAnswerBand9" <|> jgetNN ma "model_answer_band9").getD
      (jsOrJ candidateResponse (.str "Model answer at Band 9 level."))),
    ("whyBand6Works", .arr (ensureArray (some ((jgetNN ma "whyBand6Works" <|> jgetNN ma "why_band6_works").getD
      (.arr [.str "Demonstrates competent language use"]))))),
    ("whyBand7Works", .arr (ensureArray (some ((jgetNN ma "whyBand7Works" <|> jgetNN ma "why_band7_works").getD
      (.arr [.str "Shows good language control with minor limitations"]))))),
    ("whyBand8Works", .arr (ensureArray (some ((jgetNN ma "whyBand8Works" <|> jgetNN ma "why_band8_works").getD
      (.arr [.str "Exhibits sophisticated vocabulary and grammar"]))))),
    ("whyBand9Works", .arr (ensureArray (some ((jgetNN ma "whyBand9Works" <|> jgetNN ma "why_band9_works").getD
      (.arr [.str "Demonstrates near-native fluency and precision"])))))]

/-- `normalizeEvaluationResponse` (migration file, lines 1172–1281):
the canonical normalized result object. -/
def normalizeEvaluationResponse (data : Json) : Json :=
  .obj [
    ("overall_band", overallBandJ data),
    ("overallBand", overallBandJ data),
    ("questionScores", .arr (questionScoresOf data)),
    ("minimalResponseCount", minimalResponseCountJ data),
    ("totalQuestionCount", totalQuestionCountJ data),
    ("fluency_coherence", normalizeCriterion data "fluencyCoherence" "fluency_coherence"),
    ("lexical_resource", lexicalResourceOf data),
    ("grammatical_range", normalizeCriterion data "grammaticalRange" "grammatical_range"),
    ("pronunciation", .obj [
      ("score", (jgetNN ((jgetNN data "pronunciation").getD (.obj [])) "score").getD (.num 0)),
      ("feedback", (jgetNN ((jgetNN data "pronunciation").getD (.obj [])) "feedback").getD (.str ""))]),
    ("lexical_upgrades", .arr (lexicalUpgradesOf data)),
    ("part_analysis", .arr (partAnalysisOf data)),
    ("improvement_priorities", .arr (ensureArray
      (jgetNN data "priorityImprovements" <|> jgetNN data "improvement_priorities"))),
    ("strengths_to_maintain", .arr (ensureArray
      (jgetNN data "keyStrengths" <|> jgetNN data "strengths_to_maintain"))),
    ("examiner_notes", (jgetNN data "summary" <|> jgetNN data "examiner_notes").getD (.str "")),
    ("modelAnswers", .arr ((ensureArray
      (jgetNN data "modelAnswers" <|> jgetNN data "model_answers")).map normalizeModelAnswer))]

end Full

namespace PartEval

/-- Split a character list at the first occurrence of `c` (JavaScript
`indexOf` plus the two `slice`s around it). -/
def splitAtFirst (c : Char) : List Char → Option (List Char × List Char)
  | [] => none
  | a :: rest =>
    if a = c then some ([], rest)
    else (splitAtFirst c rest).map (fun p => (a :: p.1, p.2))

/-- `parseDataUrl` (evaluate-ai-speaking-part/index.ts, lines 581–596). -/
def parseDataUrl (value : String) : String × String :=
  if value = "" then ("audio/webm", "")
  else if List.isPrefixOf "data:".data value.data then
    let afterScheme := value.data.drop 5
    match splitAtFirst ',' afterScheme with
    | some (header, rest) =>
      let mime := match splitAtFirst ';' header with
        | some (beforeSemi, _) => String.mk beforeSemi
        | none => String.mk header
      let mt := strTrim mime
      ((if mt = "" then "audio/webm" else mt), String.mk rest)
    | none =>
      let mime := match splitAtFirst ';' afterScheme with
        | some (beforeSemi, _) => String.mk beforeSemi
        | none => String.mk afterScheme
      let mt := strTrim mime
      ((if mt = "" then "audio/webm" else mt), "")
  else ("audio/webm", value)

/-- The selection predicate of `retryTranscriptionForNoSpeechPart`
(lines 799–812): the transcript trims to the "no speech detected"
sentinel (case-insensitively) or to the empty string, usable audio of at
least 100 base64 characters exists, and the duration is absent or at
least 0.7 s. -/
def isRetryCandidate (audioData : List (String × String))
    (durations : List (String × ℚ)) (k v : String) : Bool :=
  let t := lowerStr (strTrim v)
  if t ≠ "no speech detected" ∧ t ≠ "" then false
  else
    match audioData.lookup k with
    | none => false
    | some raw =>
      if raw = "" then false
      else
        let b64 := (parseDataUrl raw).2
        if b64 = "" ∨ b64.length < 100 then false
        else
          match durations.lookup k with
          | none => true
          | some d => 7 / 10 ≤ d

/-- `keysToRetry`: the keys of the transcripts map passing the selection
predicate, in object order. -/
def keysToRetry (transcriptsMap audioData : List (String × String))
    (durations : List (String × ℚ)) : List String :=
  (transcriptsMap.filter (fun kv => isRetryCandidate audioData durations kv.1 kv.2)).map Prod.fst

/-- Update-or-append in a string association list (JavaScript
`transcriptsMap[key] = candidate`). -/
def setAssoc : List (String × String) → String → String → List (String × String)
  | [], k, v => [(k, v)]
  | (a, b) :: rest, k, v =>
    if a = k then (a, v) :: rest else (a, b) :: setAssoc rest k v

/-- The overwrite loop (lines 887–894): for each selected key, a non-empty
trimmed candidate from the model's transcript map replaces the entry. -/
def applyRepairs (transcriptsMap : List (String × String)) (limited : List String)
    (newMap : List (String × String)) : List (String × String) :=
  limited.foldl (fun acc k =>
    let candidate := strTrim ((newMap.lookup k).getD "")
    if candidate ≠ "" then setAssoc acc k candidate else acc) transcriptsMap

/-- Outcome of one repair call against a model: any HTTP failure, timeout,
missing text, parse failure or non-object `transcripts` is a failure
(`continue`); a parsed object of transcripts applies and breaks. -/
inductive RepairOutcome where
  | fail
  | okMap (m : List (String × String))

/-- `[preferredModel, ...GEMINI_MODELS_FALLBACK_ORDER].filter(Boolean)`. -/
def modelsToTry (preferredModel : Option String) : List String :=
  (match preferredModel with
   | some p => [p]
   | none => []) ++ GEMINI_MODELS_FALLBACK_ORDER

/-- First model (in order) whose repair call returns a transcripts object. -/
def firstOkMap (env : String → RepairOutcome) : List String → Option (List (String × String))
  | [] => none
  | m :: ms =>
    match env m with
    | .okMap nm => some nm
    | .fail => firstOkMap env ms

/-- `retryTranscriptionForNoSpeechPart` (evaluate-ai-speaking-part/index.ts,
lines 790–908), with the provider modelled by `env`. -/
def retryTranscriptionForNoSpeechPart (transcriptsMap audioData : List (String × String))
    (durations : List (String × ℚ)) (preferredModel : Option String)
    (env : String → RepairOutcome) : List (String × String) :=
  let keys := keysToRetry transcriptsMap audioData durations
  if keys.length = 0 then transcriptsMap
  else
    let limited := keys.take 8
    match firstOkMap env (modelsToTry preferredModel) with
    | none => transcriptsMap
    | some nm => applyRepairs transcriptsMap limited nm

end PartEval

namespace V2

/-- Job status values, per the `speaking_evaluation_jobs` CHECK constraint. -/
inductive JobStatus where
  | pending | processing | completed | failed
deriving DecidableEq

/-- One status update written to the `speaking_evaluation_jobs` row. -/
structure StatusWrite where
  status : JobStatus
  lastError : Option String
deriving DecidableEq

/-- Whether `runEvaluation` returned normally or threw. -/
inductive RunResult where
  | returns
  | throws (msg : String)
deriving DecidableEq

/-- Environment of one background execution of `runEvaluation`: which store
reads succeed, how many audio files download, how many API keys are
available, whether the rotation loop produces a parsed result, and the
job row's stored retry counter and ceiling. -/
structure RunEnv where
  jobFound : Bool
  testFound : Bool
  audioCount : Nat
  keyCount : Nat
  rotationSucceeds : Bool
  retryCount : Nat
  maxRetries : Nat

/-- JavaScript `(n || 5)` on the stored `max_retries`. -/
def jsOr5 (n : Nat) : Nat := if n = 0 then 5 else n

/-- Status writes performed by `runEvaluation`
(evaluate-speaking-async/index.ts, second document, lines 661–908), in
order, together with its termination mode.  The function first writes
`processing`, then throws on a missing job/test, zero downloaded audio
files or zero keys; a failed rotation either resets the job to `pending`
(when `retry_count + 1 < (max_retries || 5)`) or throws; a successful
rotation writes `completed`. -/
def runEvaluationWrites (env : RunEnv) : List StatusWrite × RunResult :=
  let started : List StatusWrite := [⟨.processing, none⟩]
  if env.jobFound = false then (started, .throws "Job not found")
  else if env.testFound = false then (started, .throws "Test not found")
  else if env.audioCount = 0 then (started, .throws "No audio files could be downloaded")
  else if env.keyCount = 0 then (started, .throws "No API keys available")
  else if env.rotationSucceeds then
    (started ++ [⟨.completed, none⟩], .returns)
  else if env.retryCount + 1 < jsOr5 env.maxRetries then
    (started ++ [⟨.pending, some "All models failed"⟩], .returns)
  else
    (started, .throws "Evaluation failed after all retries")

/-- Status writes performed by `processInBackground`
(evaluate-speaking-async/index.ts, second document, lines 615–629): the
writes of `runEvaluation`, plus a single `failed` write from the catch
handler when `runEvaluation` throws.  This is the only background
computation the submission handler schedules (via `EdgeRuntime.waitUntil`
or a detached promise); no timer is armed. -/
def processInBackgroundWrites (env : RunEnv) : List StatusWrite :=
  match runEvaluationWrites env with
  | (ws, .returns) => ws
  | (ws, .throws msg) => ws ++ [⟨.failed, some msg⟩]

/-- The writes actually reaching the job store: the hosting environment may
terminate the detached background task at any point (`kill = some k`
truncates after `k` writes); nothing else ever writes to the job. -/
def observedWrites (env : RunEnv) (kill : Option Nat) : List StatusWrite :=
  match kill with
  | none => processInBackgroundWrites env
  | some k => (processInBackgroundWrites env).take k

/-- The job's status history: the `pending` insert performed by the
submission handler followed by the observed background writes. -/
def statusTrace (env : RunEnv) (kill : Option Nat) : List JobStatus :=
  JobStatus.pending :: (observedWrites env kill).map StatusWrite.status

/-- Terminal statuses. -/
def isTerminal : JobStatus → Bool
  | .completed => true
  | .failed => true
  | _ => false

/-- The allowed state graph claimed by the specification:
pending → processing → {completed, failed}, plus the retry edge
processing → pending. -/
def allowedEdge : JobStatus → JobStatus → Bool
  | .pending, .processing => true
  | .processing, .completed => true
  | .processing, .failed => true
  | .processing, .pending => true
  | _, _ => false

/-- Number of `failed` writes in a write list. -/
def countFailed (ws : List StatusWrite) : Nat :=
  ws.countP (fun w => w.status == .failed)

/-- One classified outcome of a single Gemini HTTP attempt. -/
inductive AttemptOutcome where
  | httpErr (status : Nat) (body : String)
  | ok (hasText : Bool) (parses : Bool)
  | thrown (msg : String)

/-- `RETRY_CONFIG` (evaluate-speaking-async/index.ts, second document,
lines 530–535). -/
def RETRY_CONFIG_maxRetries : Nat := 5

/-- `RETRY_CONFIG.initialDelayMs`. -/
def RETRY_CONFIG_initialDelayMs : Nat := 2000

/-- `RETRY_CONFIG.maxDelayMs`. -/
def RETRY_CONFIG_maxDelayMs : Nat := 30000

/-- `RETRY_CONFIG.backoffMultiplier`. -/
def RETRY_CONFIG_backoffMultiplier : Nat := 2

/-- Backoff delay for the HTTP-error retry branch:
`min(initialDelayMs * backoffMultiplier ^ attempt, maxDelayMs)`. -/
def backoffDelay (attempt : Nat) : Nat :=
  min (RETRY_CONFIG_initialDelayMs * RETRY_CONFIG_backoffMultiplier ^ attempt)
    RETRY_CONFIG_maxDelayMs

/-- Backoff delay in the catch branch: `initialDelayMs * 2 ^ attempt`
(note: not capped by `maxDelayMs` in the source). -/
def catchDelay (attempt : Nat) : Nat := RETRY_CONFIG_initialDelayMs * 2 ^ attempt

/-- Result of the per-(credential, model) attempt loop. -/
structure PairRun where
  succeeded : Bool
  sleeps : List Nat
  markedExhausted : Bool
deriving DecidableEq

/-- The inner `for (let attempt = 0; attempt <= maxRetries; attempt++)`
loop of `runEvaluation` (lines 776–852), with `responses` giving the
provider outcome of each attempt.  HTTP 404 breaks immediately;
statuses 429/503/504 sleep with exponential backoff and retry while
attempts remain; other HTTP errors break (marking the pool key
quota-exhausted when the error is quota-classified); a thrown fetch error
sleeps and retries while attempts remain; an OK response breaks,
succeeding exactly when it has text that parses as JSON. -/
def attemptLoopGo (hasPoolId : Bool) (responses : Nat → AttemptOutcome) :
    Nat → Nat → PairRun
  | _, 0 => ⟨false, [], false⟩
  | attempt, fuel + 1 =>
    match responses attempt with
    | .httpErr s body =>
      let isQuota := s == 429 || strIncludes (lowerStr body) "quota"
      let isRetryable := s == 429 || s == 503 || s == 504
      let isNotFound := s == 404
      if isNotFound then ⟨false, [], false⟩
      else if isRetryable ∧ attempt < RETRY_CONFIG_maxRetries then
        let r := attemptLoopGo hasPoolId responses (attempt + 1) fuel
        ⟨r.succeeded, backoffDelay attempt :: r.sleeps, r.markedExhausted⟩
      else ⟨false, [], isQuota && hasPoolId⟩
    | .ok hasText parses => ⟨hasText && parses, [], false⟩
    | .thrown _ =>
      if attempt < RETRY_CONFIG_maxRetries then
        let r := attemptLoopGo hasPoolId responses (attempt + 1) fuel
        ⟨r.succeeded, catchDelay attempt :: r.sleeps, r.markedExhausted⟩
      else ⟨false, [], false⟩

/-- The attempt loop started at attempt 0 (the loop always breaks by
attempt `maxRetries`, so `maxRetries + 1` fuel is exact). -/
def attemptLoop (hasPoolId : Bool) (responses : Nat → AttemptOutcome) : PairRun :=
  attemptLoopGo hasPoolId responses 0 (RETRY_CONFIG_maxRetries + 1)

/-- `GEMINI_MODELS` (second document, lines 523–527). -/
def GEMINI_MODELS : List String :=
  ["gemini-2.0-flash", "gemini-2.5-flash", "gemini-1.5-pro"]

/-- The inner model loop of `runEvaluation`'s rotation: try each model with
the current key, recording attempted (key, model) pairs, stopping at the
first success. -/
def modelLoop (hasPoolId : Bool) (env : String → Nat → AttemptOutcome) (kIdx : Nat) :
    List String → Bool × List (Nat × String)
  | [] => (false, [])
  | m :: ms =>
    let r := attemptLoop hasPoolId (env m)
    if r.succeeded then (true, [(kIdx, m)])
    else
      let rest := modelLoop hasPoolId env kIdx ms
      (rest.1, (kIdx, m) :: rest.2)

/-- The outer key loop of `runEvaluation`'s rotation over the key queue
(`keys` records, for each queued key, whether it is a pool key). -/
def keyLoop (env : Nat → String → Nat → AttemptOutcome) :
    List Bool → Nat → Bool × List (Nat × String)
  | [], _ => (false, [])
  | hasId :: rest, kIdx =>
    let r := modelLoop hasId (env kIdx) kIdx GEMINI_MODELS
    if r.1 then r
    else
      let r2 := keyLoop env rest (kIdx + 1)
      (r2.1, r.2 ++ r2.2)

/-- The full rotation of `runEvaluation` (lines 771–856): key queue ×
model priority list, each pair driven through the attempt loop. -/
def runEvaluationRotation (keys : List Bool)
    (env : Nat → String → Nat → AttemptOutcome) : Bool × List (Nat × String) :=
  keyLoop env keys 0

/-- The full (key index, model) product in rotation order, for comparison
with the attempted-pairs list. -/
def pairsFrom (kIdx : Nat) : Nat → List (Nat × String)
  | 0 => []
  | n + 1 => GEMINI_MODELS.map (fun m => (kIdx, m)) ++ pairsFrom (kIdx + 1) n

/-- `calculateBand` (second document, lines 941–946): average of the
criterion bands that pass a truthiness filter, rounded to the nearest
half, defaulting to 6.0 when criteria are missing or no band survives the
filter. -/
def calculateBand (result : Json) : Json :=
  let c := (jget result "criteria").getD .null
  if truthy c = false then .num 6
  else
    let scores := ([bandOfCriterion c "fluency_coherence", bandOfCriterion c "lexical_resource",
        bandOfCriterion c "grammatical_range", bandOfCriterion c "pronunciation"]).filterMap
      truthyBandFilter
    if scores.length = 0 then .num 6
    else .num ((jsRound (((scores.map jsNumVal).sum / scores.length) * 2) : ℚ) / 2)

/-- Line 873 of the second document:
`result.overall_band || calculateBand(result)`. -/
def overallBandOf (result : Json) : Json :=
  if truthyOpt (jget result "overall_band") then (jget result "overall_band").getD .null
  else calculateBand result

end V2

/-- The consecutive transition pairs of a status history. -/
def transitionPairs {α : Type} : List α → List (α × α)
  | a :: b :: rest => (a, b) :: transitionPairs (b :: rest)
  | _ => []

/-- A band field that is absent, `null`, `false` or the empty string: such a
field carries no numeric band score, and is dropped both by the
`typeof s === 'number'` filter and by the `Boolean` filter. -/
def bandAbsentOrBlank (o : Option Json) : Prop :=
  o = none ∨ o = some .null ∨ o = some (.bool false) ∨ o = some (.str "")

/-- The input of the C7 witness: nine questions reported, five minimal
(ratio 5/9 > 1/2), provider raw band 8. -/
def c7data : Json :=
  Json.obj [("questionScores",
      Json.arr [Json.obj [("score", Json.num 2)], Json.obj [("score", Json.num 3)]]),
    ("minimalResponseCount", Json.num 5), ("totalQuestionCount", Json.num 9),
    ("overallBand", Json.num 8)]

/-- Claim C3 counterexample: a 429 response whose body says
"too many requests" (resp. "rate limit") is classified as quota, not as
rate-limit, by both classifiers — the 429 check sits in the quota branch,
which is tested first. -/
theorem c3_429_too_many_requests_is_quota_cex :
    (V1.classifyGeminiError 429 "too many requests").isRateLimit = false ∧
    (V1.classifyGeminiError 429 "too many requests").isQuota = true ∧
    (PartEval.classifyGeminiError 429 "rate limit").isRateLimit = false ∧
    (PartEval.classifyGeminiError 429 "rate limit").isQuota = true := by
  refine ⟨rfl, rfl, rfl, rfl⟩

/-- Claim C3 (amended): both classifiers return the rate-limit kind exactly
when the status is not 429, the body has no quota/resource-exhaustion
wording, and the body contains "rate limit" or "too many requests". -/
theorem c3_rate_limit_characterization (status : Nat) (errorText : String) :
    ((V1.classifyGeminiError status errorText).isRateLimit = true ↔
      ((status == 429
          || strIncludes (lowerStr errorText) "quota"
          || strIncludes (lowerStr errorText) "resource_exhausted") = false ∧
        (strIncludes (lowerStr errorText) "rate limit"
          || strIncludes (lowerStr errorText) "too many requests") = true)) ∧
    ((PartEval.classifyGeminiError status errorText).isRateLimit = true ↔
      ((status == 429
          || strIncludes (lowerStr errorText) "quota"
          || strIncludes (lowerStr errorText) "resource_exhausted") = false ∧
        (strIncludes (lowerStr errorText) "rate limit"
          || strIncludes (lowerStr errorText) "too many requests") = true)) := by
  constructor
  · rcases h1 : (status == 429
        || strIncludes (lowerStr errorText) "quota"
        || strIncludes (lowerStr errorText) "resource_exhausted") with _ | _ <;>
    rcases h2 : (strIncludes (lowerStr errorText) "rate limit"
        || strIncludes (lowerStr errorText) "too many requests") with _ | _ <;>
    rcases h3 : (status == 503 || strIncludes (lowerStr errorText) "overloaded"
        || strIncludes (lowerStr errorText) "unavailable") with _ | _ <;>
    simp [V1.classifyGeminiError, h1, h2, h3]
  · rcases h1 : (status == 429
        || strIncludes (lowerStr errorText) "quota"
        || strIncludes (lowerStr errorText) "resource_exhausted") with _ | _ <;>
    rcases h2 : (strIncludes (lowerStr errorText) "rate limit"
        || strIncludes (lowerStr errorText) "too many requests") with _ | _ <;>
    rcases h3 : (status == 400 && (strIncludes (lowerStr errorText) "api_key"
        || strIncludes (lowerStr errorText) "api key")) with _ | _ <;>
    rcases h4 : (status == 403) with _ | _ <;>
    rcases h5 : (status == 503) with _ | _ <;>
    simp [PartEval.classifyGeminiError, h1, h2, h3, h4, h5]

/-- Claim C3 (amended) witness at a concrete non-429 rate-limited response. -/
theorem c3_rate_limit_characterization_witness :
    (V1.classifyGeminiError 200 "rate limit hit").isRateLimit = true ∧
    (PartEval.classifyGeminiError 200 "rate limit hit").isRateLimit = true := by
  refine ⟨((c3_rate_limit_characterization 200 "rate limit hit").1).2 ⟨by decide, by decide⟩,
    ((c3_rate_limit_characterization 200 "rate limit hit").2).2 ⟨by decide, by decide⟩⟩

/-- Claim C4: a 429 response whose body contains billing/quota language is
classified as quota and never as rate-limit, by both classifiers. -/
theorem c4_429_quota_language_is_quota (errorText : String)
    (hq : strIncludes (lowerStr errorText) "quota" = true) :
    (V1.classifyGeminiError 429 errorText).isQuota = true ∧
    (V1.classifyGeminiError 429 errorText).isRateLimit = false ∧
    (PartEval.classifyGeminiError 429 errorText).isQuota = true ∧
    (PartEval.classifyGeminiError 429 errorText).isRateLimit = false := by
  unfold V1.classifyGeminiError PartEval.classifyGeminiError
  simp [hq]

/-- Claim C4 witness. -/
theorem c4_429_quota_language_is_quota_witness :
    strIncludes (lowerStr "Quota exceeded for your billing plan") "quota" = true ∧
    (V1.classifyGeminiError 429 "Quota exceeded for your billing plan").isQuota = true :=
  ⟨by decide, (c4_429_quota_language_is_quota "Quota exceeded for your billing plan" (by decide)).1⟩

theorem numBandFilter_of_blank (o : Option Json) (h : bandAbsentOrBlank o) :
    numBandFilter o = none := by
  rcases h with rfl | rfl | rfl | rfl <;> rfl

theorem truthyBandFilter_of_blank (o : Option Json) (h : bandAbsentOrBlank o) :
    truthyBandFilter o = none := by
  rcases h with rfl | rfl | rfl | rfl <;> rfl

/-- Claim C10: when the parsed result has no `overall_band` field and none of
the four criterion entries carries a band score, both band calculators
default to 6.0 — the first-generation `calculateOverallBand` and the
second generation's `result.overall_band || calculateBand(result)`. -/
theorem c10_empty_result_defaults_to_band_6 (result : Json)
    (hov : jget result "overall_band" = none)
    (h1 : bandAbsentOrBlank (bandOfCriterion ((jget result "criteria").getD .null) "fluency_coherence"))
    (h2 : bandAbsentOrBlank (bandOfCriterion ((jget result "criteria").getD .null) "lexical_resource"))
    (h3 : bandAbsentOrBlank (bandOfCriterion ((jget result "criteria").getD .null) "grammatical_range"))
    (h4 : bandAbsentOrBlank (bandOfCriterion ((jget result "criteria").getD .null) "pronunciation")) :
    V1.calculateOverallBand result = .num 6 ∧ V2.overallBandOf result = .num 6 := by
  have n1 := numBandFilter_of_blank _ h1
  have n2 := numBandFilter_of_blank _ h2
  have n3 := numBandFilter_of_blank _ h3
  have n4 := numBandFilter_of_blank _ h4
  have t1 := truthyBandFilter_of_blank _ h1
  have t2 := truthyBandFilter_of_blank _ h2
  have t3 := truthyBandFilter_of_blank _ h3
  have t4 := truthyBandFilter_of_blank _ h4
  constructor
  · unfold V1.calculateOverallBand
    rw [hov]
    simp only [truthyOpt, Bool.false_eq_true, if_false]
    cases hc : truthy ((jget result "criteria").getD .null)
    · simp [hc]
    · simp [hc, n1, n2, n3, n4]
  · unfold V2.overallBandOf V2.calculateBand
    rw [hov]
    simp only [truthyOpt, Bool.false_eq_true, if_false]
    cases hc : truthy ((jget result "criteria").getD .null)
    · simp [hc]
    · simp [hc, t1, t2, t3, t4]

/-- Claim C10 witness: the structurally empty result object. -/
theorem c10_empty_result_defaults_to_band_6_witness :
    V1.calculateOverallBand (Json.obj []) = .num 6 ∧ V2.overallBandOf (Json.obj []) = .num 6 :=
  c10_empty_result_defaults_to_band_6 (Json.obj []) rfl (Or.inl rfl) (Or.inl rfl)
    (Or.inl rfl) (Or.inl rfl)

theorem V2.runEvaluationWrites_cases (env : V2.RunEnv) :
    (∃ msg, V2.runEvaluationWrites env = ([⟨.processing, none⟩], .throws msg)) ∨
    V2.runEvaluationWrites env = ([⟨.processing, none⟩, ⟨.completed, none⟩], .returns) ∨
    (V2.runEvaluationWrites env
        = ([⟨.processing, none⟩, ⟨.pending, some "All models failed"⟩], .returns) ∧
      env.retryCount + 1 < V2.jsOr5 env.maxRetries) := by
  obtain ⟨jf, tf, ac, kc, rs, rc, mr⟩ := env
  cases jf
  · exact Or.inl ⟨"Job not found", rfl⟩
  cases tf
  · exact Or.inl ⟨"Test not found", rfl⟩
  rcases ac with _ | ac
  · exact Or.inl ⟨"No audio files could be downloaded", rfl⟩
  rcases kc with _ | kc
  · exact Or.inl ⟨"No API keys available", rfl⟩
  cases rs
  · by_cases h : rc + 1 < V2.jsOr5 mr
    · refine Or.inr (Or.inr ⟨?_, h⟩)
      simp [V2.runEvaluationWrites, h]
    · refine Or.inl ⟨"Evaluation failed after all retries", ?_⟩
      simp [V2.runEvaluationWrites, h]
  · exact Or.inr (Or.inl rfl)

/-- Claim C1 counterexample: the submission handler schedules exactly one
background computation (`processInBackground`) and no timer; if the host
kills that computation right after its `processing` write, the job never
receives a terminal status and no `failed` transition ever occurs — there
is no watchdog to force one. -/
theorem c1_no_watchdog_cex :
    (∀ w ∈ V2.observedWrites ⟨true, true, 1, 1, true, 0, 5⟩ (some 1), V2.isTerminal w.status = false) ∧
    V2.countFailed (V2.observedWrites ⟨true, true, 1, 1, true, 0, 5⟩ (some 1)) = 0 := by
  decide

/-- Claim C1 (amended): there is no watchdog; the only `failed` transition
is written by `processInBackground`'s catch handler, exactly once, when
`runEvaluation` throws, and `runEvaluation` itself never writes `failed`. -/
theorem c1_failed_only_from_catch (env : V2.RunEnv) :
    V2.countFailed (V2.runEvaluationWrites env).1 = 0 ∧
    ((V2.runEvaluationWrites env).2 = V2.RunResult.returns →
      V2.processInBackgroundWrites env = (V2.runEvaluationWrites env).1 ∧
      V2.countFailed (V2.processInBackgroundWrites env) = 0) ∧
    (∀ msg, (V2.runEvaluationWrites env).2 = V2.RunResult.throws msg →
      V2.processInBackgroundWrites env
        = (V2.runEvaluationWrites env).1 ++ [⟨.failed, some msg⟩] ∧
      V2.countFailed (V2.processInBackgroundWrites env) = 1) := by
  rcases V2.runEvaluationWrites_cases env with ⟨msg, hm⟩ | hm | ⟨hm, hrc⟩
  · refine ⟨by rw [hm]; rfl, ?_, ?_⟩
    · intro h
      rw [hm] at h
      simp at h
    · intro m hmsg
      rw [hm] at hmsg
      simp only [Prod.snd] at hmsg
      cases hmsg
      constructor
      · simp [V2.processInBackgroundWrites, hm]
      · simp [V2.processInBackgroundWrites, hm, V2.countFailed]
  · refine ⟨by rw [hm]; rfl, ?_, ?_⟩
    · intro _
      constructor
      · simp [V2.processInBackgroundWrites, hm]
      · simp [V2.processInBackgroundWrites, hm, V2.countFailed]
    · intro m hmsg
      rw [hm] at hmsg
      simp at hmsg
  · refine ⟨by rw [hm]; rfl, ?_, ?_⟩
    · intro _
      constructor
      · simp [V2.processInBackgroundWrites, hm]
      · simp [V2.processInBackgroundWrites, hm, V2.countFailed]
    · intro m hmsg
      rw [hm] at hmsg
      simp at hmsg

/-- Claim C1 (amended) witness: a run that throws (no audio downloads)
reaches `failed` exactly once, via the catch handler. -/
theorem c1_failed_only_from_catch_witness :
    (V2.runEvaluationWrites ⟨true, true, 0, 1, true, 0, 5⟩).2
      = V2.RunResult.throws "No audio files could be downloaded" ∧
    V2.countFailed (V2.processInBackgroundWrites ⟨true, true, 0, 1, true, 0, 5⟩) = 1 :=
  ⟨rfl, ((c1_failed_only_from_catch ⟨true, true, 0, 1, true, 0, 5⟩).2.2
    "No audio files could be downloaded" rfl).2⟩

theorem transitionPairs_append_subset {α : Type} (l t : List α) :
    ∀ p ∈ transitionPairs l, p ∈ transitionPairs (l ++ t) := by
  induction l with
  | nil => intro p hp; simp [transitionPairs] at hp
  | cons a rest ih =>
    cases rest with
    | nil => intro p hp; simp [transitionPairs] at hp
    | cons b r2 =>
      intro p hp
      simp only [transitionPairs, List.mem_cons, List.cons_append] at hp ⊢
      rcases hp with h | h
      · exact Or.inl h
      · exact Or.inr (ih p h)

theorem V2.statusTrace_truncation (env : V2.RunEnv) (k : Nat) :
    ∃ t, V2.statusTrace env none = V2.statusTrace env (some k) ++ t := by
  refine ⟨((V2.processInBackgroundWrites env).drop k).map V2.StatusWrite.status, ?_⟩
  simp [V2.statusTrace, V2.observedWrites, ← List.map_append]

theorem V2.statusTrace_none_cases (env : V2.RunEnv) :
    V2.statusTrace env none = [.pending, .processing, .failed] ∨
    V2.statusTrace env none = [.pending, .processing, .completed] ∨
    (V2.statusTrace env none = [.pending, .processing, .pending] ∧
      env.retryCount + 1 < V2.jsOr5 env.maxRetries) := by
  rcases V2.runEvaluationWrites_cases env with ⟨msg, hm⟩ | hm | ⟨hm, hrc⟩
  · exact Or.inl (by simp [V2.statusTrace, V2.observedWrites, V2.processInBackgroundWrites, hm])
  · exact Or.inr (Or.inl (by simp [V2.statusTrace, V2.observedWrites, V2.processInBackgroundWrites, hm]))
  · exact Or.inr (Or.inr ⟨by simp [V2.statusTrace, V2.observedWrites, V2.processInBackgroundWrites, hm], hrc⟩)

/-- Claim C2: every observed status history of a job walks the allowed
graph pending → processing → {completed, failed} (with the retry edge
processing → pending); the retry edge occurs only when the stored retry
counter is below the retry ceiling (`max_retries`, defaulted to 5); and a
terminal status is never followed by anything. -/
theorem c2_status_walks_allowed_graph (env : V2.RunEnv) (kill : Option Nat) :
    (∀ p ∈ transitionPairs (V2.statusTrace env kill), V2.allowedEdge p.1 p.2 = true) ∧
    ((V2.JobStatus.processing, V2.JobStatus.pending) ∈ transitionPairs (V2.statusTrace env kill) →
      env.retryCount < V2.jsOr5 env.maxRetries) ∧
    (∀ p ∈ transitionPairs (V2.statusTrace env kill), V2.isTerminal p.1 = false) := by
  obtain ⟨tail, htail⟩ : ∃ t, V2.statusTrace env none = V2.statusTrace env kill ++ t := by
    cases kill with
    | none => exact ⟨[], by simp⟩
    | some k => exact V2.statusTrace_truncation env k
  have hsub : ∀ p ∈ transitionPairs (V2.statusTrace env kill),
      p ∈ transitionPairs (V2.statusTrace env none) := by
    intro p hp
    rw [htail]
    exact transitionPairs_append_subset _ tail p hp
  rcases V2.statusTrace_none_cases env with h | h | ⟨h, hrc⟩
  · refine ⟨?_, ?_, ?_⟩
    · intro p hp
      have hmem := hsub p hp
      rw [h] at hmem
      simp only [transitionPairs, List.mem_cons, List.not_mem_nil, or_false] at hmem
      rcases hmem with rfl | rfl <;> rfl
    · intro hmem
      have := hsub _ hmem
      rw [h] at this
      simp [transitionPairs] at this
    · intro p hp
      have hmem := hsub p hp
      rw [h] at hmem
      simp only [transitionPairs, List.mem_cons, List.not_mem_nil, or_false] at hmem
      rcases hmem with rfl | rfl <;> rfl
  · refine ⟨?_, ?_, ?_⟩
    · intro p hp
      have hmem := hsub p hp
      rw [h] at hmem
      simp only [transitionPairs, List.mem_cons, List.not_mem_nil, or_false] at hmem
      rcases hmem with rfl | rfl <;> rfl
    · intro hmem
      have := hsub _ hmem
      rw [h] at this
      simp [transitionPairs] at this
    · intro p hp
      have hmem := hsub p hp
      rw [h] at hmem
      simp only [transitionPairs, List.mem_cons, List.not_mem_nil, or_false] at hmem
      rcases hmem with rfl | rfl <;> rfl
  · refine ⟨?_, ?_, ?_⟩
    · intro p hp
      have hmem := hsub p hp
      rw [h] at hmem
      simp only [transitionPairs, List.mem_cons, List.not_mem_nil, or_false] at hmem
      rcases hmem with rfl | rfl <;> rfl
    · intro _
      omega
    · intro p hp
      have hmem := hsub p hp
      rw [h] at hmem
      simp only [transitionPairs, List.mem_cons, List.not_mem_nil, or_false] at hmem
      rcases hmem with rfl | rfl <;> rfl

/-- Claim C2 witness: a failing run below the retry ceiling takes the
processing → pending edge, and the theorem instantiates there. -/
theorem c2_status_walks_allowed_graph_witness :
    (V2.JobStatus.processing, V2.JobStatus.pending)
      ∈ transitionPairs (V2.statusTrace ⟨true, true, 1, 1, false, 0, 5⟩ none) ∧
    (0 : Nat) < V2.jsOr5 5 :=
  ⟨by decide, (c2_status_walks_allowed_graph ⟨true, true, 1, 1, false, 0, 5⟩ none).2.1 (by decide)⟩

/-- Claim C5 counterexample: a (credential, model) pair whose every attempt
returns HTTP 429 with a rate-limit body is *not* aborted immediately — the
loop sleeps through the full exponential backoff schedule
(2s, 4s, 8s, 16s, 30s) before giving the pair up, because the retry test
is `status ∈ {429, 503, 504}`, not a transient-only classification. -/
theorem c5_429_still_backs_off_cex :
    V2.attemptLoop true (fun _ => .httpErr 429 "too many requests")
      = ⟨false, [2000, 4000, 8000, 16000, 30000], true⟩ := by
  decide

/-- Claim C5 (amended): within one (credential, model) pair, the loop sleeps
with exponential backoff exactly for HTTP statuses 429, 503 and 504 (five
sleeps of 2s, 4s, 8s, 16s, 30s); a 404 and every other HTTP error abort
the pair immediately with no sleep, and 404 never marks the key. -/
theorem c5_backoff_exactly_on_429_503_504 (s : Nat) (body : String) (hasPoolId : Bool) :
    ((s = 429 ∨ s = 503 ∨ s = 504) →
      (V2.attemptLoop hasPoolId (fun _ => .httpErr s body)).sleeps
          = [2000, 4000, 8000, 16000, 30000] ∧
        (V2.attemptLoop hasPoolId (fun _ => .httpErr s body)).succeeded = false) ∧
    (s ≠ 404 → s ≠ 429 → s ≠ 503 → s ≠ 504 →
      (V2.attemptLoop hasPoolId (fun _ => .httpErr s body)).sleeps = [] ∧
        (V2.attemptLoop hasPoolId (fun _ => .httpErr s body)).succeeded = false) ∧
    (s = 404 →
      V2.attemptLoop hasPoolId (fun _ => .httpErr s body) = ⟨false, [], false⟩) := by
  refine ⟨?_, ?_, ?_⟩
  · rintro (rfl | rfl | rfl) <;> exact ⟨rfl, rfl⟩
  · intro h404 h429 h503 h504
    have e404 : (s == 404) = false := by simp [h404]
    have e429 : (s == 429) = false := by simp [h429]
    have e503 : (s == 503) = false := by simp [h503]
    have e504 : (s == 504) = false := by simp [h504]
    have hstep : V2.attemptLoop hasPoolId (fun _ => .httpErr s body)
        = ⟨false, [], (s == 429 || strIncludes (lowerStr body) "quota") && hasPoolId⟩ := by
      unfold V2.attemptLoop V2.attemptLoopGo
      simp [e404, e429, e503, e504]
    rw [hstep]
    exact ⟨rfl, rfl⟩
  · rintro rfl
    rfl

/-- Claim C5 (amended) witness: a 503 pair backs off through the full
schedule; a 500 pair aborts with no sleep. -/
theorem c5_backoff_exactly_on_429_503_504_witness :
    (V2.attemptLoop false (fun _ => .httpErr 503 "overloaded")).sleeps
        = [2000, 4000, 8000, 16000, 30000] ∧
    (V2.attemptLoop false (fun _ => .httpErr 500 "internal")).sleeps = [] :=
  ⟨((c5_backoff_exactly_on_429_503_504 503 "overloaded" false).1 (Or.inr (Or.inl rfl))).1,
    ((c5_backoff_exactly_on_429_503_504 500 "internal" false).2.1
      (by decide) (by decide) (by decide) (by decide)).1⟩

/-- Claim C6 counterexample: with no user key and four pool keys that all
return HTTP 500, the part-evaluation rotation yields failure having
attempted only pool keys 0–2 (the loop bound is `min(poolKeys.length, 3)`),
so the pairs of pool key 3 are never attempted; and a single pool key
answering 429 aborts after its first model, leaving that key's remaining
models unattempted, yet still yields failure. -/
theorem c6_failure_without_exhausting_pairs_cex :
    (PartEval.rotateKeys none (List.replicate 4 (fun _ => .httpErr 500 "internal error"))).1 = false ∧
    ((some 3, "gemini-1.5-flash") ∉
      (PartEval.rotateKeys none (List.replicate 4 (fun _ => .httpErr 500 "internal error"))).2) ∧
    PartEval.rotateKeys none [fun _ => .httpErr 429 "quota exceeded"]
      = (false, [(some 0, "gemini-1.5-flash")]) := by
  refine ⟨by decide, by decide, by decide⟩

theorem V2.modelLoop_failure (hasId : Bool) (env : String → Nat → V2.AttemptOutcome)
    (kIdx : Nat) (ms : List String) (h : (V2.modelLoop hasId env kIdx ms).1 = false) :
    (V2.modelLoop hasId env kIdx ms).2 = ms.map (fun m => (kIdx, m)) := by
  induction ms with
  | nil => rfl
  | cons m ms ih =>
    by_cases hr : (V2.attemptLoop hasId (env m)).succeeded
    · simp [V2.modelLoop, hr] at h
    · simp only [V2.modelLoop, hr, Bool.false_eq_true, if_false] at h ⊢
      simp only [List.map_cons, List.cons.injEq, true_and]
      exact ih h

theorem V2.keyLoop_failure (env : Nat → String → Nat → V2.AttemptOutcome)
    (keys : List Bool) : ∀ (kIdx : Nat), (V2.keyLoop env keys kIdx).1 = false →
    (V2.keyLoop env keys kIdx).2 = V2.pairsFrom kIdx keys.length := by
  induction keys with
  | nil => intro kIdx _; rfl
  | cons hasId rest ih =>
    intro kIdx h
    by_cases hr : (V2.modelLoop hasId (env kIdx) kIdx V2.GEMINI_MODELS).1
    · simp [V2.keyLoop, hr] at h
    · have hr' : (V2.modelLoop hasId (env kIdx) kIdx V2.GEMINI_MODELS).1 = false := by
        simpa using hr
      simp only [V2.keyLoop, hr', Bool.false_eq_true, if_false] at h ⊢
      simp only [List.length_cons, V2.pairsFrom]
      rw [V2.modelLoop_failure hasId (env kIdx) kIdx V2.GEMINI_MODELS hr', ih (kIdx + 1) h]

theorem PartEval.poolLoop_indices (pe : List (String → PartEval.CallOutcome)) :
    ∀ (is : List Nat) (i : Nat) (m : String),
      (some i, m) ∈ (PartEval.poolLoop pe is).2 → i ∈ is := by
  intro is
  induction is with
  | nil => intro i m hm; simp [PartEval.poolLoop] at hm
  | cons j js ih =>
    intro i m hm
    by_cases hr : (PartEval.tryGeminiWithKey false true
        (pe.getD j (fun _ => .thrown "missing key"))).success
    · simp only [PartEval.poolLoop, hr, if_true, List.mem_map] at hm
      obtain ⟨a, _, ha⟩ := hm
      obtain ⟨h1, -⟩ := Prod.mk.injEq .. ▸ ha
      cases h1
      exact List.mem_cons_self j js
    · simp only [PartEval.poolLoop, hr, Bool.false_eq_true, if_false, List.mem_append,
        List.mem_map] at hm
      rcases hm with ⟨a, -, ha⟩ | hm
      · obtain ⟨h1, -⟩ := Prod.mk.injEq .. ▸ ha
        cases h1
        exact List.mem_cons_self j js
      · exact List.mem_cons_of_mem j (ih i m hm)

/-- Claim C6 (amended): the background (`runEvaluation`) rotation does
satisfy the claim — it stops at the first success and yields failure only
after attempting every (key, model) pair of the queue × priority list —
but the part-evaluation rotation attempts pool keys only up to index 2,
so its aggregate failure does not imply all pairs were attempted. -/
theorem c6_first_success_and_bounded_exhaustion :
    (∀ (keys : List Bool) (env : Nat → String → Nat → V2.AttemptOutcome),
      (V2.runEvaluationRotation keys env).1 = false →
        (V2.runEvaluationRotation keys env).2 = V2.pairsFrom 0 keys.length) ∧
    (∀ (hasId : Bool) (rest : List Bool) (env : Nat → String → Nat → V2.AttemptOutcome),
      (V2.attemptLoop hasId (env 0 "gemini-2.0-flash")).succeeded = true →
        V2.runEvaluationRotation (hasId :: rest) env = (true, [(0, "gemini-2.0-flash")])) ∧
    (∀ (ue : Option (String → PartEval.CallOutcome))
        (pe : List (String → PartEval.CallOutcome)) (i : Nat) (m : String),
      (some i, m) ∈ (PartEval.rotateKeys ue pe).2 → i < 3) := by
  refine ⟨?_, ?_, ?_⟩
  · intro keys env h
    exact V2.keyLoop_failure env keys 0 h
  · intro hasId rest env hsucc
    simp [V2.runEvaluationRotation, V2.keyLoop, V2.modelLoop, V2.GEMINI_MODELS, hsucc]
  · intro ue pe i m hm
    have hmin : min pe.length 3 ≤ 3 := Nat.min_le_right _ _
    cases ue with
    | none =>
      unfold PartEval.rotateKeys at hm
      dsimp only at hm
      by_cases hlen : 0 < pe.length
      · rw [if_pos hlen] at hm
        have hmem := PartEval.poolLoop_indices pe _ i m hm
        have h4 := List.mem_range'_1.1 hmem
        omega
      · rw [if_neg hlen] at hm
        simp at hm
    | some u =>
      unfold PartEval.rotateKeys at hm
      dsimp only at hm
      by_cases h1 : (PartEval.tryGeminiWithKey true false u).success
      · rw [if_pos h1] at hm
        simp only [List.mem_map] at hm
        obtain ⟨a, -, ha⟩ := hm
        exact absurd ha (by simp)
      · rw [if_neg h1] at hm
        by_cases h2 : (PartEval.tryGeminiWithKey true false u).userKeyFailed = true ∧ 0 < pe.length
        · rw [if_pos h2] at hm
          by_cases h3 : (PartEval.tryGeminiWithKey false true
              (pe.getD 0 (fun _ => .thrown "missing key"))).success
          · rw [if_pos h3] at hm
            simp only [List.mem_append, List.mem_map] at hm
            rcases hm with ⟨a, -, ha⟩ | ⟨a, -, ha⟩
            · exact absurd ha (by simp)
            · have h0 : (some 0 : Option Nat) = some i := congrArg Prod.fst ha
              have : i = 0 := by simpa using h0.symm
              omega
          · rw [if_neg h3] at hm
            simp only [List.mem_append, List.mem_map] at hm
            rcases hm with (⟨a, -, ha⟩ | ⟨a, -, ha⟩) | hm
            · exact absurd ha (by simp)
            · have h0 : (some 0 : Option Nat) = some i := congrArg Prod.fst ha
              have : i = 0 := by simpa using h0.symm
              omega
            · have hmem := PartEval.poolLoop_indices pe _ i m hm
              have h4 := List.mem_range'_1.1 hmem
              omega
        · rw [if_neg h2] at hm
          simp only [List.mem_map] at hm
          obtain ⟨a, -, ha⟩ := hm
          exact absurd ha (by simp)

/-- Claim C6 (amended) witness: a one-key queue whose only model responses
are 404 exhausts the full pair list; a first-pair success short-circuits. -/
theorem c6_first_success_and_bounded_exhaustion_witness :
    (V2.runEvaluationRotation [true] (fun _ _ _ => .httpErr 404 "not found")).2
        = V2.pairsFrom 0 1 ∧
    V2.runEvaluationRotation [false] (fun _ _ _ => .ok true true)
        = (true, [(0, "gemini-2.0-flash")]) ∧
    ((some 2, "m") ∈ (PartEval.rotateKeys none []).2 → (2 : Nat) < 3) :=
  ⟨c6_first_success_and_bounded_exhaustion.1 [true] (fun _ _ _ => .httpErr 404 "not found")
      (by decide),
    c6_first_success_and_bounded_exhaustion.2.1 false [] (fun _ _ _ => .ok true true) (by decide),
    fun h => c6_first_success_and_bounded_exhaustion.2.2 none [] 2 "m" h⟩

theorem jsMin_le_left (a b : ℚ) : jsMin a b ≤ a := by
  unfold jsMin
  split_ifs with h
  · exact le_refl a
  · linarith

theorem jsMin_le_right (a b : ℚ) : jsMin a b ≤ b := by
  unfold jsMin
  split_ifs with h
  · exact h
  · exact le_refl b

theorem clamp_le_of_le (b1 a adj c : ℚ) (h : b1 ≤ c) :
    (if b1 > a + 3 / 2 then jsMin b1 adj else b1) ≤ c := by
  split_ifs with hh
  · exact le_trans (jsMin_le_left _ _) h
  · exact h

theorem clamp_le_margin (b1 a adj : ℚ) (hadj : adj ≤ a + 3 / 2) :
    (if b1 > a + 3 / 2 then jsMin b1 adj else b1) ≤ a + 3 / 2 := by
  split_ifs with hh
  · exact le_trans (jsMin_le_right _ _) hadj
  · linarith

theorem capped_le_cap (raw cap : ℚ) : (if raw > cap then cap else raw) ≤ cap := by
  split_ifs with h
  · exact le_refl cap
  · linarith

/-- Claim C7: whenever per-question scores are present, the normalized
overall band is capped at 4.0 when more than half the responses are
minimal, at 5.0 when more than 30% (and at most half) are, and never
exceeds the average question score by more than 1.5. -/
theorem c7_overall_band_caps (data : Json)
    (hqs : (Full.questionScoresOf data).length ≠ 0) :
    jget (Full.normalizeEvaluationResponse data) "overall_band"
        = some (.num (Full.cappedOverallBand data)) ∧
    (Full.minimalRatioOf data > 1 / 2 → Full.cappedOverallBand data ≤ 4) ∧
    (Full.minimalRatioOf data > 3 / 10 → Full.minimalRatioOf data ≤ 1 / 2 →
      Full.cappedOverallBand data ≤ 5) ∧
    Full.cappedOverallBand data ≤ Full.avgQuestionScore data + 3 / 2 := by
  refine ⟨?_, ?_, ?_, ?_⟩
  · have h0 : jget (Full.normalizeEvaluationResponse data) "overall_band"
        = some (Full.overallBandJ data) := rfl
    rw [h0, Full.overallBandJ, if_neg hqs]
  · intro hR
    unfold Full.cappedOverallBand
    dsimp only
    rw [if_pos hR]
    exact clamp_le_of_le _ _ _ _ (capped_le_cap _ _)
  · intro hR1 hR2
    unfold Full.cappedOverallBand
    dsimp only
    rw [if_neg (not_lt.2 hR2), if_pos hR1]
    exact clamp_le_of_le _ _ _ _ (capped_le_cap _ _)
  · have hadj : ((jsRound ((Full.avgQuestionScore data + 1) * 2) : ℤ) : ℚ) / 2
        ≤ Full.avgQuestionScore data + 3 / 2 := by
      have hf : ((⌊(Full.avgQuestionScore data + 1) * 2 + 1 / 2⌋ : ℤ) : ℚ)
          ≤ (Full.avgQuestionScore data + 1) * 2 + 1 / 2 := Int.floor_le _
      unfold jsRound
      linarith
    unfold Full.cappedOverallBand
    dsimp only
    exact clamp_le_margin _ _ _ hadj

/-- Claim C7 witness: nine questions, five minimal (ratio 5/9 > 1/2), raw
band 8 — the normalized band is capped at 4. -/
theorem c7_overall_band_caps_witness :
    ((Full.questionScoresOf c7data).length ≠ 0) ∧
    Full.minimalRatioOf c7data > 1 / 2 ∧
    Full.cappedOverallBand c7data ≤ 4 := by
  have hlen : (Full.questionScoresOf c7data).length ≠ 0 := by
    have : Full.questionScoresOf c7data
        = [Json.obj [("score", Json.num 2)], Json.obj [("score", Json.num 3)]] := rfl
    rw [this]
    simp
  have hm : Full.minimalResponseCountJ c7data = Json.num 5 := rfl
  have ht : Full.totalQuestionCountJ c7data = Json.num 9 := rfl
  have hratio : Full.minimalRatioOf c7data > 1 / 2 := by
    unfold Full.minimalRatioOf
    rw [hm, ht]
    show (5 : ℚ) / jsMax (9 : ℚ) 1 > 1 / 2
    norm_num [jsMax]
  exact ⟨hlen, hratio, (c7_overall_band_caps c7data hlen).2.1 hratio⟩

/-- Claim C8 counterexample: the normalized `pronunciation` criterion has
only `score` and `feedback` — it never carries an `examples` list, not
even an empty one, so "every criterion defaults to ... an empty example
list" fails for this criterion. -/
theorem c8_pronunciation_has_no_examples_cex :
    jget (Full.normalizeEvaluationResponse (Json.obj [])) "pronunciation"
        = some (Json.obj [("score", Json.num 0), ("feedback", Json.str "")]) ∧
    (jget (Full.normalizeEvaluationResponse (Json.obj [])) "pronunciation").bind
        (fun p => jget p "examples") = none :=
  ⟨rfl, rfl⟩

/-- Claim C8 (amended): `normalize` is total on JSON values and always emits
all four criteria, each with `score` and `feedback` present (defaulted to
0 / empty when omitted); fluency, lexical and grammatical additionally
always carry an `examples` array (empty when omitted), but `pronunciation`
carries no example list at all. -/
theorem c8_all_criteria_present (data : Json) :
    (∃ s f es, jget (Full.normalizeEvaluationResponse data) "fluency_coherence"
        = some (.obj [("score", s), ("feedback", f), ("examples", .arr es)])) ∧
    (∃ s f es lu, jget (Full.normalizeEvaluationResponse data) "lexical_resource"
        = some (.obj [("score", s), ("feedback", f), ("examples", .arr es),
            ("lexicalUpgrades", .arr lu)])) ∧
    (∃ s f es, jget (Full.normalizeEvaluationResponse data) "grammatical_range"
        = some (.obj [("score", s), ("feedback", f), ("examples", .arr es)])) ∧
    (∃ s f, jget (Full.normalizeEvaluationResponse data) "pronunciation"
        = some (.obj [("score", s), ("feedback", f)])) ∧
    (jgetNN data "fluencyCoherence" = none → jgetNN data "fluency_coherence" = none →
      jget (Full.normalizeEvaluationResponse data) "fluency_coherence"
        = some (.obj [("score", .num 0), ("feedback", .str ""), ("examples", .arr [])])) ∧
    (jgetNN data "grammaticalRange" = none → jgetNN data "grammatical_range" = none →
      jget (Full.normalizeEvaluationResponse data) "grammatical_range"
        = some (.obj [("score", .num 0), ("feedback", .str ""), ("examples", .arr [])])) ∧
    (jgetNN data "lexicalResource" = none → jgetNN data "lexical_resource" = none →
      jget (Full.normalizeEvaluationResponse data) "lexical_resource"
        = some (.obj [("score", .num 0), ("feedback", .str ""), ("examples", .arr []),
            ("lexicalUpgrades", .arr (Full.lexicalUpgradesOf data))])) ∧
    (jgetNN data "pronunciation" = none →
      jget (Full.normalizeEvaluationResponse data) "pronunciation"
        = some (.obj [("score", .num 0), ("feedback", .str "")])) := by
  refine ⟨⟨_, _, _, rfl⟩, ⟨_, _, _, _, rfl⟩, ⟨_, _, _, rfl⟩, ⟨_, _, rfl⟩, ?_, ?_, ?_, ?_⟩
  · intro h1 h2
    have h0 : jget (Full.normalizeEvaluationResponse data) "fluency_coherence"
        = some (Full.normalizeCriterion data "fluencyCoherence" "fluency_coherence") := rfl
    rw [h0]
    unfold Full.normalizeCriterion
    rw [h1, h2]
    rfl
  · intro h1 h2
    have h0 : jget (Full.normalizeEvaluationResponse data) "grammatical_range"
        = some (Full.normalizeCriterion data "grammaticalRange" "grammatical_range") := rfl
    rw [h0]
    unfold Full.normalizeCriterion
    rw [h1, h2]
    rfl
  · intro h1 h2
    have h0 : jget (Full.normalizeEvaluationResponse data) "lexical_resource"
        = some (Full.lexicalResourceOf data) := rfl
    rw [h0]
    unfold Full.lexicalResourceOf Full.normalizeCriterion
    rw [h1, h2]
    rfl
  · intro h1
    have h0 : jget (Full.normalizeEvaluationResponse data) "pronunciation"
        = some (Json.obj [
            ("score", (jgetNN ((jgetNN data "pronunciation").getD (.obj [])) "score").getD (.num 0)),
            ("feedback", (jgetNN ((jgetNN data "pronunciation").getD (.obj [])) "feedback").getD (.str ""))]) := rfl
    rw [h0, h1]
    rfl

/-- Claim C8 (amended) witness at the empty object. -/
theorem c8_all_criteria_present_witness :
    jget (Full.normalizeEvaluationResponse (Json.obj [])) "fluency_coherence"
      = some (.obj [("score", .num 0), ("feedback", .str ""), ("examples", .arr [])]) :=
  (c8_all_criteria_present (Json.obj [])).2.2.2.2.1 rfl rfl

/-- Claim C9 counterexample: a transcript entry consisting of one space is
non-empty and is not the sentinel, yet the repair pass selects it (it
trims to empty) and overwrites it with the newly returned transcript. -/
theorem c9_whitespace_entry_overwritten_cex :
    (" " ≠ "") ∧ (" " ≠ "No speech detected") ∧
    PartEval.retryTranscriptionForNoSpeechPart [("k", " ")]
        [("k", String.mk (List.replicate 100 'A'))] [] none
        (fun _ => .okMap [("k", "hello")])
      = [("k", "hello")] := by
  exact ⟨by decide, by decide, rfl⟩

theorem PartEval.setAssoc_lookup_self (m : List (String × String)) (k v : String) :
    (PartEval.setAssoc m k v).lookup k = some v := by
  induction m with
  | nil => simp [PartEval.setAssoc, List.lookup]
  | cons p rest ih =>
    obtain ⟨a, b⟩ := p
    by_cases h : a = k
    · subst h
      simp [PartEval.setAssoc, List.lookup]
    · have hb : (k == a) = false := beq_eq_false_iff_ne.2 (fun e => h e.symm)
      simp [PartEval.setAssoc, List.lookup, h, hb, ih]

theorem PartEval.setAssoc_lookup_other (m : List (String × String)) (k v k' : String)
    (hne : k' ≠ k) : (PartEval.setAssoc m k v).lookup k' = m.lookup k' := by
  induction m with
  | nil =>
    have hb : (k' == k) = false := beq_eq_false_iff_ne.2 hne
    simp [PartEval.setAssoc, List.lookup, hb]
  | cons p rest ih =>
    obtain ⟨a, b⟩ := p
    by_cases h : a = k
    · subst h
      have hb : (k' == a) = false := beq_eq_false_iff_ne.2 hne
      simp [PartEval.setAssoc, List.lookup, hb]
    · simp [PartEval.setAssoc, List.lookup, h, ih]

theorem PartEval.applyRepairs_lookup (limited : List String) :
    ∀ (m nm : List (String × String)) (k : String),
    (PartEval.applyRepairs m limited nm).lookup k
      = if k ∈ limited ∧ strTrim ((nm.lookup k).getD "") ≠ ""
        then some (strTrim ((nm.lookup k).getD ""))
        else m.lookup k := by
  induction limited with
  | nil =>
    intro m nm k
    simp [PartEval.applyRepairs]
  | cons a rest ih =>
    intro m nm k
    have hstep : PartEval.applyRepairs m (a :: rest) nm
        = PartEval.applyRepairs
            (if strTrim ((nm.lookup a).getD "") ≠ ""
              then PartEval.setAssoc m a (strTrim ((nm.lookup a).getD "")) else m)
            rest nm := rfl
    rw [hstep, ih]
    by_cases h1 : k ∈ rest ∧ strTrim ((nm.lookup k).getD "") ≠ ""
    · rw [if_pos h1]
      have hcond : k ∈ a :: rest ∧ strTrim ((nm.lookup k).getD "") ≠ "" :=
        ⟨List.mem_cons_of_mem a h1.1, h1.2⟩
      rw [if_pos hcond]
    · rw [if_neg h1]
      by_cases hk : k = a
      · subst hk
        by_cases hc : strTrim ((nm.lookup k).getD "") ≠ ""
        · have hcond : k ∈ k :: rest ∧ strTrim ((nm.lookup k).getD "") ≠ "" :=
            ⟨List.mem_cons_self k rest, hc⟩
          rw [if_pos hc, PartEval.setAssoc_lookup_self, if_pos hcond]
        · have hcond : ¬(k ∈ k :: rest ∧ strTrim ((nm.lookup k).getD "") ≠ "") :=
            fun hcon => hc hcon.2
          rw [if_neg hc, if_neg hcond]
      · have hcond : ¬(k ∈ a :: rest ∧ strTrim ((nm.lookup k).getD "") ≠ "") := by
          rintro ⟨hmem, hc⟩
          rcases List.mem_cons.1 hmem with rfl | hr
          · exact hk rfl
          · exact h1 ⟨hr, hc⟩
        rw [if_neg hcond]
        split_ifs with hca
        · exact PartEval.setAssoc_lookup_other m a _ k hk
        · rfl

theorem lookup_eq_of_mem_nodup (m : List (String × String)) (k v : String)
    (hn : (m.map Prod.fst).Nodup) (hm : (k, v) ∈ m) : m.lookup k = some v := by
  induction m with
  | nil => cases hm
  | cons p rest ih =>
    obtain ⟨a, b⟩ := p
    have hn' : (a :: rest.map Prod.fst).Nodup := by simpa using hn
    have hns1 : a ∉ rest.map Prod.fst := (List.nodup_cons.1 hn').1
    have hns2 : (rest.map Prod.fst).Nodup := by
      have := (List.nodup_cons.1 hn').2
      simpa using this
    rcases List.mem_cons.1 hm with h | h
    · cases h
      simp [List.lookup]
    · have ha : ¬(k = a) := by
        intro he
        subst he
        exact hns1 (List.mem_map_of_mem Prod.fst h)
      have hb : (k == a) = false := beq_eq_false_iff_ne.2 ha
      simpa [List.lookup, hb] using ih hns2 h

/-- Claim C9 (amended): the transcript repair pass is strictly additive in
this sense: entries whose trimmed content is neither empty nor the
(case-insensitive) "no speech detected" sentinel are returned unchanged;
when no model returns a transcripts object, the map is returned untouched;
and any changed entry is one of the (at most 8) selected keys, overwritten
with a non-empty trimmed transcript from the first successful model. -/
theorem c9_repair_strictly_additive (transcriptsMap audioData : List (String × String))
    (durations : List (String × ℚ)) (pref : Option String)
    (env : String → PartEval.RepairOutcome)
    (hn : (transcriptsMap.map Prod.fst).Nodup) :
    (∀ k v, transcriptsMap.lookup k = some v → lowerStr (strTrim v) ≠ "" →
      lowerStr (strTrim v) ≠ "no speech detected" →
      (PartEval.retryTranscriptionForNoSpeechPart transcriptsMap audioData durations
          pref env).lookup k = some v) ∧
    (PartEval.firstOkMap env (PartEval.modelsToTry pref) = none →
      PartEval.retryTranscriptionForNoSpeechPart transcriptsMap audioData durations pref env
        = transcriptsMap) ∧
    (∀ k, (PartEval.retryTranscriptionForNoSpeechPart transcriptsMap audioData durations
          pref env).lookup k ≠ transcriptsMap.lookup k →
      ∃ nm, PartEval.firstOkMap env (PartEval.modelsToTry pref) = some nm ∧
        strTrim ((nm.lookup k).getD "") ≠ "" ∧
        (PartEval.retryTranscriptionForNoSpeechPart transcriptsMap audioData durations
            pref env).lookup k = some (strTrim ((nm.lookup k).getD "")) ∧
        k ∈ (PartEval.keysToRetry transcriptsMap audioData durations).take 8) := by
  have hcases :
      PartEval.retryTranscriptionForNoSpeechPart transcriptsMap audioData durations pref env
        = transcriptsMap ∨
      (∃ nm, PartEval.firstOkMap env (PartEval.modelsToTry pref) = some nm ∧
        PartEval.retryTranscriptionForNoSpeechPart transcriptsMap audioData durations pref env
          = PartEval.applyRepairs transcriptsMap
              ((PartEval.keysToRetry transcriptsMap audioData durations).take 8) nm) := by
    by_cases hlen : (PartEval.keysToRetry transcriptsMap audioData durations).length = 0
    · left
      unfold PartEval.retryTranscriptionForNoSpeechPart
      rw [if_pos hlen]
    · rcases hfo : PartEval.firstOkMap env (PartEval.modelsToTry pref) with _ | nm
      · left
        unfold PartEval.retryTranscriptionForNoSpeechPart
        rw [if_neg hlen, hfo]
      · right
        refine ⟨nm, rfl, ?_⟩
        unfold PartEval.retryTranscriptionForNoSpeechPart
        rw [if_neg hlen, hfo]
  refine ⟨?_, ?_, ?_⟩
  · intro k v hv h1 h2
    have hknot : k ∉ (PartEval.keysToRetry transcriptsMap audioData durations).take 8 := by
      intro hk
      have hk' : k ∈ PartEval.keysToRetry transcriptsMap audioData durations :=
        List.take_subset 8 _ hk
      simp only [PartEval.keysToRetry, List.mem_map, List.mem_filter] at hk'
      obtain ⟨⟨k', v'⟩, ⟨hmem, hpred⟩, hfst⟩ := hk'
      simp only at hfst hpred
      subst hfst
      have hv' := lookup_eq_of_mem_nodup _ _ _ hn hmem
      rw [hv] at hv'
      obtain rfl : v = v' := by
        cases hv'
        rfl
      unfold PartEval.isRetryCandidate at hpred
      rw [if_pos ⟨h2, h1⟩] at hpred
      cases hpred
    rcases hcases with hres | ⟨nm, -, hres⟩
    · rw [hres]
      exact hv
    · rw [hres, PartEval.applyRepairs_lookup]
      rw [if_neg (fun hcon => hknot hcon.1)]
      exact hv
  · intro hnone
    rcases hcases with hres | ⟨nm, hfo, -⟩
    · exact hres
    · rw [hnone] at hfo
      cases hfo
  · intro k hne
    rcases hcases with hres | ⟨nm, hfo, hres⟩
    · rw [hres] at hne
      exact absurd rfl hne
    · rw [hres, PartEval.applyRepairs_lookup] at hne
      by_cases hcond : k ∈ (PartEval.keysToRetry transcriptsMap audioData durations).take 8 ∧
          strTrim ((nm.lookup k).getD "") ≠ ""
      · refine ⟨nm, hfo, hcond.2, ?_, hcond.1⟩
        rw [hres, PartEval.applyRepairs_lookup, if_pos hcond]
      · rw [if_neg hcond] at hne
        exact absurd rfl hne

/-- Claim C9 (amended) witness: an already-present transcript survives a
successful repair round untouched. -/
theorem c9_repair_strictly_additive_witness :
    (PartEval.retryTranscriptionForNoSpeechPart [("a", "fine answer"), ("k", "")]
        [("k", String.mk (List.replicate 100 'A'))] [] none
        (fun _ => .okMap [("k", "fixed"), ("a", "junk")])).lookup "a"
      = some "fine answer" :=
  (c9_repair_strictly_additive [("a", "fine answer"), ("k", "")]
      [("k", String.mk (List.replicate 100 'A'))] [] none
      (fun _ => .okMap [("k", "fixed"), ("a", "junk")]) (by decide)).1
    "a" "fine answer" rfl (by decide) (by decide)
